import Mathlib

/-!
Shallow embedding of `debug_torque_connection.py`, a diagnostic script for a
desktop application's embedded local server.  External effects (filesystem,
environment, sockets, HTTP) are modelled by a `World` oracle; `main` is
embedded as a function producing the list of observable events (printed
lines, TCP probes, HTTP GET requests) in program order.  Strings are modelled
over their ASCII fragment where the script manipulates them.
-/

set_option autoImplicit false

namespace Torque

/-- A filesystem path, as the list of its components (`pathlib.Path` segments). -/
abbrev Path := List String

/-- Rendering of a path used in printed messages (a modelling choice for
`f"{port_file}"`; no verified property depends on this rendering). -/
def pathStr (p : Path) : String := String.intercalate "/" p

/-- Python `str.strip()` whitespace characters (ASCII fragment). -/
def pyWs (c : Char) : Bool :=
  c == ' ' || c == '\t' || c == '\n' || c == '\r' || c == '\x0b' || c == '\x0c'

/-- Drop leading and trailing whitespace from a character list. -/
def stripList (l : List Char) : List Char :=
  ((l.dropWhile pyWs).reverse.dropWhile pyWs).reverse

/-- Python `str.strip()`: drop leading and trailing whitespace. -/
def pyStrip (s : String) : String :=
  String.mk (stripList s.data)

/-- Value of a list of decimal digit characters, most significant first. -/
def digitsVal (l : List Char) : Nat :=
  l.foldl (fun a c => a * 10 + (c.toNat - 48)) 0

/-- Recogniser for the digit part of a Python integer literal:
`digit+` groups separated by single underscores; the boolean argument records
whether the previous character was a digit (so an underscore is legal). -/
def pyUnds : List Char → Bool → Bool
  | [], prev => prev
  | c :: rest, prev =>
    if c.isDigit then pyUnds rest true
    else if c = '_' then prev && pyUnds rest false
    else false

/-- Parse an unsigned digit sequence as Python `int` does (underscore
group separators allowed between digits). -/
def pyIntOfDigits (l : List Char) : Option Int :=
  if pyUnds l false then some ((digitsVal (l.filter (· != '_')) : Nat) : Int)
  else none

/-- Parse an optionally signed digit sequence. -/
def pyIntCore : List Char → Option Int
  | [] => none
  | c :: rest =>
    if c = '+' then pyIntOfDigits rest
    else if c = '-' then (pyIntOfDigits rest).map (fun n => -n)
    else pyIntOfDigits (c :: rest)

/-- Python's `int(s)` on a string argument (ASCII fragment): strip
whitespace, then parse an optionally signed base-10 integer; `none` models
`ValueError`. -/
def pyInt (s : String) : Option Int :=
  pyIntCore (pyStrip s).data

/-- Python `s[:n]` on a string: the first at-most-`n` characters. -/
def strTake (s : String) (n : Nat) : String := String.mk (s.data.take n)

/-- The external world the script interacts with: OS identity, environment,
home directory, filesystem, and network.  `pathExists` models
`Path.exists()` (true for files as well as directories); `isDir` records
whether an existing path is a directory (the script never consults it).
`connectEx` models `socket.connect_ex` (`Except.error` = an exception was
raised, `Except.ok r` = it returned errno `r`).  `httpGet` models
`requests.get` (`Except.error e` = a `RequestException` with message `e`).
`readErr` gives the message of the exception raised when opening/reading a
file fails. -/
structure World where
  osName : String
  appdata : Option String
  home : Path
  pathExists : Path → Bool
  isDir : Path → Bool
  fileContents : Path → Option String
  readErr : Path → String
  connectEx : String → Int → Nat → Except String Int
  httpGet : String → Nat → Except String (Int × String)

/-- `check_port_open(host, port, timeout)`: `connect_ex` result compared with
0; any exception is swallowed and yields `false`. -/
def check_port_open (w : World) (host : String) (port : Int) (timeout : Nat) : Bool :=
  match w.connectEx host port timeout with
  | Except.ok r => r == 0
  | Except.error _ => false

/-- `check_http_endpoint(url, timeout)`: on success
`(status_code, response.text[:200])`; on a `RequestException`
`(None, str(e))`. -/
def check_http_endpoint (w : World) (url : String) (timeout : Nat) : Option Int × String :=
  match w.httpGet url timeout with
  | Except.ok sb => (some sb.1, strTake sb.2 200)
  | Except.error e => (none, e)

/-- The candidate list built by `find_torque_data_dir`: on Windows
(`os.name == 'nt'`) a single path under `APPDATA` (none when the variable is
unset); otherwise three Unix-like candidates under the home directory. -/
def possible_dirs (w : World) : List Path :=
  if w.osName = "nt" then
    match w.appdata with
    | some a => [[a, "com.torque.desktop"]]
    | none => []
  else
    [w.home ++ [".local", "share", "com.torque.desktop"],
     w.home ++ ["Library", "Application Support", "com.torque.desktop"],
     w.home ++ [".config", "torque-desktop"]]

/-- The `for dir_path in possible_dirs: if dir_path.exists(): return dir_path`
loop. -/
def firstExisting (w : World) : List Path → Option Path
  | [] => none
  | p :: rest => if w.pathExists p then some p else firstExisting w rest

/-- `find_torque_data_dir()`. -/
def find_torque_data_dir (w : World) : Option Path :=
  firstExisting w (possible_dirs w)

/-- `check_server_port_file()`: locate the data directory, check
`server_port.txt` exists, read it, `int(contents.strip())`.  Returns the
parsed port (or `none`) together with the lines it prints.  The text after
`"Error reading port file: "` models `str(e)` loosely; no verified property
inspects it. -/
def check_server_port_file (w : World) : Option Int × List String :=
  match find_torque_data_dir w with
  | none => (none, ["❌ Could not find Torque data directory"])
  | some data_dir =>
    let port_file := data_dir ++ ["server_port.txt"]
    if w.pathExists port_file then
      match w.fileContents port_file with
      | none => (none, ["❌ Error reading port file: " ++ w.readErr port_file])
      | some s =>
        match pyInt (pyStrip s) with
        | none =>
          (none, ["❌ Error reading port file: invalid literal for int() with base 10: "
                    ++ pyStrip s])
        | some port =>
          (some port, ["✅ Found port file: " ++ pathStr port_file,
                       "📋 Embedded server port: " ++ toString port])
    else (none, ["❌ Port file not found: " ++ pathStr port_file])

/-- Observable events of a run of `main()`: printed lines, TCP connect
probes, and HTTP GET requests, in program order. -/
inductive Ev where
  | print (line : String)
  | tcpProbe (host : String) (port : Int)
  | httpGet (url : String)
  deriving DecidableEq, Repr

/-- Python truthiness of the `Optional[int]` values the script branches on
(`None` and `0` are falsy). -/
def truthyI : Option Int → Bool
  | some n => n != 0
  | none => false

/-- `f"{x}"` for an `Optional[int]`. -/
def optIntStr : Option Int → String
  | some n => toString n
  | none => "None"

/-- `f"http://127.0.0.1:{port}/health/health"`. -/
def healthUrl (p : Int) : String := "http://127.0.0.1:" ++ toString p ++ "/health/health"

/-- `f"http://127.0.0.1:{port}/ws"`. -/
def wsUrl (p : Int) : String := "http://127.0.0.1:" ++ toString p ++ "/ws"

/-- `f"http://127.0.0.1:{port}/graphql"`. -/
def gqlUrl (p : Int) : String := "http://127.0.0.1:" ++ toString p ++ "/graphql"

/-- `"=" * 50`. -/
def eqLine : String := String.mk (List.replicate 50 '=')

/-- The fixed fallback port list `test_ports = [8080, 8081, 3000, 3001]`. -/
def fallbackPorts : List Int := [8080, 8081, 3000, 3001]

/-- `check_port_open('127.0.0.1', p)` as called by `main` (default timeout 5). -/
def portOpen (w : World) (p : Int) : Bool := check_port_open w "127.0.0.1" p 5

/-- Whether the health endpoint of port `p` answers with status 200, as
tested by the fallback loop (`status_code and status_code == 200`; since 200
is truthy this is equality of the status with 200). -/
def healthOk (w : World) (p : Int) : Bool :=
  (check_http_endpoint w (healthUrl p) 5).1 == some 200

/-- The `for port in test_ports: ... else: ...` fallback loop of `main`:
probe each port; for an open port GET its health URL; stop at the first port
that is open and answers 200; the `for`-`else` prints the not-found line. -/
def scanLoop (w : World) : List Int → List Ev
  | [] => [Ev.print "❌ No Torque server found on common ports"]
  | p :: rest =>
    Ev.tcpProbe "127.0.0.1" p ::
      (if portOpen w p then
        Ev.httpGet (healthUrl p) ::
          (if healthOk w p then
            [Ev.print ("✅ Found Torque server on port " ++ toString p)]
          else scanLoop w rest)
      else scanLoop w rest)

/-- Events of a run of the fallback loop over ports that all fail the
open-and-200 test: a probe per port, and a GET only for the open ones. -/
def scanSkipEv (w : World) : List Int → List Ev
  | [] => []
  | p :: rest =>
    Ev.tcpProbe "127.0.0.1" p ::
      ((if portOpen w p then [Ev.httpGet (healthUrl p)] else []) ++ scanSkipEv w rest)

/-- The WebSocket endpoint test of `main` (`if ws_status:` is Python
truthiness). -/
def wsEv (w : World) (sp : Int) : List Ev :=
  Ev.httpGet (wsUrl sp) ::
    (let r := check_http_endpoint w (wsUrl sp) 5
     if truthyI r.1 then [Ev.print ("📡 WebSocket endpoint status: " ++ optIntStr r.1)]
     else [Ev.print ("❓ WebSocket endpoint test: " ++ r.2)])

/-- The GraphQL endpoint test of `main`. -/
def gqlEv (w : World) (sp : Int) : List Ev :=
  Ev.httpGet (gqlUrl sp) ::
    (let r := check_http_endpoint w (gqlUrl sp) 5
     if truthyI r.1 then [Ev.print ("🔗 GraphQL endpoint: " ++ optIntStr r.1)]
     else [Ev.print ("❓ GraphQL endpoint: " ++ r.2)])

/-- The connection summary printed by `main`. -/
def summaryEv (sp : Int) : List Ev :=
  [Ev.print "\n✅ Server appears to be running correctly!",
   Ev.print "🌐 Frontend should connect to:",
   Ev.print ("   Base URL: http://127.0.0.1:" ++ toString sp),
   Ev.print ("   WebSocket: ws://127.0.0.1:" ++ toString sp ++ "/ws"),
   Ev.print ("   GraphQL: http://127.0.0.1:" ++ toString sp ++ "/graphql")]

/-- The embedded-server branch of `main`, entered when the port from the
port file is truthy. -/
def embeddedEv (w : World) (sp : Int) : List Ev :=
  Ev.print ("\n2. Testing embedded server on port " ++ toString sp ++ "...") ::
  Ev.tcpProbe "127.0.0.1" sp ::
    (if portOpen w sp then
      Ev.print ("✅ Port " ++ toString sp ++ " is open") ::
      Ev.httpGet (healthUrl sp) ::
        (let r := check_http_endpoint w (healthUrl sp) 5
         if truthyI r.1 then
           Ev.print ("✅ Health endpoint: " ++ optIntStr r.1) ::
           Ev.print ("📋 Response: " ++ r.2) ::
             (wsEv w sp ++ gqlEv w sp ++ summaryEv sp)
         else [Ev.print ("❌ Health endpoint failed: " ++ r.2)])
    else [Ev.print ("❌ Port " ++ toString sp ++ " is not accessible")])

/-- The no-embedded-server branch of `main`. -/
def noneEv (w : World) : List Ev :=
  Ev.print "❌ No embedded server found" ::
  Ev.print "\n3. Testing default development endpoints..." ::
    scanLoop w fallbackPorts

/-- The header lines `main` prints before anything else. -/
def headerEv : List Ev :=
  [Ev.print "🔍 Torque Desktop Connection Diagnostic Tool",
   Ev.print eqLine,
   Ev.print "\n1. Checking for embedded server..."]

/-- The troubleshooting tips `main` always prints at the end. -/
def tipsEv : List Ev :=
  [Ev.print ("\n" ++ eqLine),
   Ev.print "📋 Troubleshooting Tips:",
   Ev.print "1. Make sure the Torque desktop app is running",
   Ev.print "2. Check the app logs for server startup errors",
   Ev.print "3. Try restarting the desktop application",
   Ev.print "4. Check if any firewall is blocking local connections"]

/-- `main()`: the full event trace of one run.  `if server_port:` is Python
truthiness, so `None` and `0` both take the fallback branch. -/
def mainEv (w : World) : List Ev :=
  headerEv ++ (check_server_port_file w).2.map Ev.print ++
    (match (check_server_port_file w).1 with
     | some sp => if sp ≠ 0 then embeddedEv w sp else noneEv w
     | none => noneEv w) ++
    tipsEv

/-- Everything `main` emits before the fallback scan, when the port-file
step yields no (truthy) port. -/
def scanContextEv (w : World) : List Ev :=
  headerEv ++ (check_server_port_file w).2.map Ev.print ++
    [Ev.print "❌ No embedded server found",
     Ev.print "\n3. Testing default development endpoints..."]

/-! ### Helper lemmas on stripping and integer parsing -/

lemma not_pyWs_of_isDigit {c : Char} (h : c.isDigit = true) : pyWs c = false := by
  by_contra hne
  have hws : pyWs c = true := by
    cases hpw : pyWs c
    · exact absurd hpw hne
    · rfl
  simp only [pyWs, Bool.or_eq_true, beq_iff_eq] at hws
  rcases hws with ((((h1 | h1) | h1) | h1) | h1) | h1 <;> subst h1 <;>
    exact absurd h (by decide)

lemma digit_ne_plus {c : Char} (h : c.isDigit = true) : c ≠ '+' := by
  rintro rfl; exact absurd h (by decide)

lemma digit_ne_minus {c : Char} (h : c.isDigit = true) : c ≠ '-' := by
  rintro rfl; exact absurd h (by decide)

lemma digit_bne_underscore {c : Char} (h : c.isDigit = true) : (c != '_') = true := by
  simp only [bne_iff_ne, ne_eq]
  rintro rfl; exact absurd h (by decide)

lemma dropWhile_ws_append (l₁ l₂ : List Char) (h : ∀ c ∈ l₁, pyWs c = true) :
    (l₁ ++ l₂).dropWhile pyWs = l₂.dropWhile pyWs := by
  induction l₁ with
  | nil => rfl
  | cons c l ih =>
    have hc : pyWs c = true := h c (by simp)
    simp only [List.cons_append, List.dropWhile_cons, hc, if_true]
    exact ih (fun x hx => h x (by simp [hx]))

lemma dropWhile_ws_of_digit_head {c : Char} (rest : List Char) (h : c.isDigit = true) :
    (c :: rest).dropWhile pyWs = c :: rest := by
  simp [List.dropWhile_cons, not_pyWs_of_isDigit h]

/-- Stripping an all-whitespace border around a nonempty all-digit token
yields the token. -/
lemma stripList_sandwich (a t b : List Char)
    (ha : ∀ c ∈ a, pyWs c = true) (hb : ∀ c ∈ b, pyWs c = true)
    (hne : t ≠ []) (hdig : ∀ c ∈ t, c.isDigit = true) :
    stripList (a ++ t ++ b) = t := by
  obtain ⟨c, rest, hct⟩ := List.exists_cons_of_ne_nil hne
  unfold stripList
  rw [List.append_assoc, dropWhile_ws_append a (t ++ b) ha]
  have h1 : (t ++ b).dropWhile pyWs = t ++ b := by
    rw [hct, List.cons_append]
    exact dropWhile_ws_of_digit_head _ (hdig c (by rw [hct]; simp))
  rw [h1, List.reverse_append,
    dropWhile_ws_append _ _ (fun x hx => hb x (List.mem_reverse.mp hx))]
  have hne' : t.reverse ≠ [] := by simpa using hne
  obtain ⟨c', rest', hc'⟩ := List.exists_cons_of_ne_nil hne'
  have hc'dig : c'.isDigit = true := by
    refine hdig c' (List.mem_reverse.mp ?_)
    rw [hc']; simp
  rw [hc', dropWhile_ws_of_digit_head _ hc'dig, ← hc', List.reverse_reverse]

lemma pyStrip_sandwich (a t b : String)
    (ha : ∀ c ∈ a.data, pyWs c = true) (hb : ∀ c ∈ b.data, pyWs c = true)
    (hne : t.data ≠ []) (hdig : ∀ c ∈ t.data, c.isDigit = true) :
    pyStrip (a ++ t ++ b) = t := by
  unfold pyStrip
  rw [show (a ++ t ++ b).data = a.data ++ t.data ++ b.data by
        simp [String.data_append],
      stripList_sandwich a.data t.data b.data ha hb hne hdig]

lemma pyStrip_digits (t : String) (hne : t.data ≠ [])
    (hdig : ∀ c ∈ t.data, c.isDigit = true) : pyStrip t = t := by
  unfold pyStrip
  rw [show t.data = [] ++ t.data ++ [] by simp,
      stripList_sandwich [] t.data [] (by simp) (by simp) hne hdig]

lemma pyUnds_true_of_digits (l : List Char) (h : ∀ c ∈ l, c.isDigit = true) :
    pyUnds l true = true := by
  induction l with
  | nil => rfl
  | cons c rest ih =>
    have hc : c.isDigit = true := h c (by simp)
    simp only [pyUnds, hc, if_true]
    exact ih (fun x hx => h x (by simp [hx]))

lemma pyIntOfDigits_digits (l : List Char) (hne : l ≠ [])
    (h : ∀ c ∈ l, c.isDigit = true) :
    pyIntOfDigits l = some ((digitsVal l : Nat) : Int) := by
  obtain ⟨c, rest, rfl⟩ := List.exists_cons_of_ne_nil hne
  have hc : c.isDigit = true := h c (by simp)
  have hunds : pyUnds (c :: rest) false = true := by
    simp only [pyUnds, hc, if_true]
    exact pyUnds_true_of_digits rest (fun x hx => h x (by simp [hx]))
  have hfil : (c :: rest).filter (· != '_') = c :: rest :=
    List.filter_eq_self.mpr (fun a ha => digit_bne_underscore (h a ha))
  simp [pyIntOfDigits, hunds, hfil]

lemma pyIntCore_digits (l : List Char) (hne : l ≠ [])
    (h : ∀ c ∈ l, c.isDigit = true) :
    pyIntCore l = some ((digitsVal l : Nat) : Int) := by
  obtain ⟨c, rest, rfl⟩ := List.exists_cons_of_ne_nil hne
  have hc : c.isDigit = true := h c (by simp)
  simp only [pyIntCore, digit_ne_plus hc, digit_ne_minus hc, if_false,
    if_neg (digit_ne_plus hc), if_neg (digit_ne_minus hc)]
  exact pyIntOfDigits_digits (c :: rest) (by simp) h

/-- Python `int` on a nonempty all-digit string is its decimal value. -/
lemma pyInt_digits (t : String) (hne : t.data ≠ [])
    (hdig : ∀ c ∈ t.data, c.isDigit = true) :
    pyInt t = some ((digitsVal t.data : Nat) : Int) := by
  unfold pyInt
  rw [pyStrip_digits t hne hdig]
  exact pyIntCore_digits t.data hne hdig

/-! ### Helper lemmas on the locator, the fallback scan and `main` -/

lemma firstExisting_spec (w : World) :
    ∀ (l : List Path) (d : Path), firstExisting w l = some d →
      w.pathExists d = true ∧ d ∈ l := by
  intro l
  induction l with
  | nil => intro d h; simp [firstExisting] at h
  | cons p rest ih =>
    intro d h
    simp only [firstExisting] at h
    by_cases hp : w.pathExists p = true
    · rw [if_pos hp] at h
      cases h
      exact ⟨hp, by simp⟩
    · rw [if_neg hp] at h
      obtain ⟨h1, h2⟩ := ih d h
      exact ⟨h1, by simp [h2]⟩

lemma scanLoop_httpGet_mem (w : World) :
    ∀ (l : List Int) (u : String), Ev.httpGet u ∈ scanLoop w l →
      ∃ p, p ∈ l ∧ u = healthUrl p ∧ portOpen w p = true := by
  intro l
  induction l with
  | nil => intro u h; simp [scanLoop] at h
  | cons p rest ih =>
    intro u h
    simp only [scanLoop] at h
    rcases List.mem_cons.mp h with h1 | h1
    · exact absurd h1 (by simp)
    · split_ifs at h1 with hop hok
      · rcases List.mem_cons.mp h1 with h2 | h2
        · refine ⟨p, by simp, ?_, hop⟩
          simpa using h2
        · simp at h2
      · rcases List.mem_cons.mp h1 with h2 | h2
        · refine ⟨p, by simp, ?_, hop⟩
          simpa using h2
        · obtain ⟨q, hq1, hq2, hq3⟩ := ih u h2
          exact ⟨q, by simp [hq1], hq2, hq3⟩
      · obtain ⟨q, hq1, hq2, hq3⟩ := ih u h1
        exact ⟨q, by simp [hq1], hq2, hq3⟩

lemma healthOk_eq_false_of_and {w : World} {p : Int}
    (h : (portOpen w p && healthOk w p) = false) (hop : portOpen w p = true) :
    healthOk w p = false := by
  cases hh : healthOk w p
  · rfl
  · rw [hop, hh] at h
    exact absurd h (by simp)

lemma scanLoop_notfound (w : World) :
    ∀ l : List Int, l.find? (fun p => portOpen w p && healthOk w p) = none →
      Ev.print "❌ No Torque server found on common ports" ∈ scanLoop w l := by
  intro l
  induction l with
  | nil => intro _; simp [scanLoop]
  | cons p rest ih =>
    intro h
    rw [List.find?_eq_none] at h
    have hp : (portOpen w p && healthOk w p) = false := by
      cases hpp : (portOpen w p && healthOk w p)
      · rfl
      · exact absurd hpp (h p (by simp))
    have hrest : rest.find? (fun q => portOpen w q && healthOk w q) = none :=
      List.find?_eq_none.mpr (fun x hx hx2 => h x (by simp [hx]) hx2)
    have hmem := ih hrest
    simp only [scanLoop]
    by_cases hop : portOpen w p = true
    · have hok : healthOk w p = false := healthOk_eq_false_of_and hp hop
      rw [if_pos hop, if_neg (by simp [hok])]
      exact List.mem_cons_of_mem _ (List.mem_cons_of_mem _ hmem)
    · rw [if_neg hop]
      exact List.mem_cons_of_mem _ hmem

lemma scanLoop_found_mem (w : World) :
    ∀ (l : List Int) (p : Int),
      l.find? (fun q => portOpen w q && healthOk w q) = some p →
      Ev.print ("✅ Found Torque server on port " ++ toString p) ∈ scanLoop w l := by
  intro l
  induction l with
  | nil => intro p h; simp at h
  | cons q rest ih =>
    intro p h
    by_cases hq : (portOpen w q && healthOk w q) = true
    · simp only [List.find?_cons_of_pos, hq, Option.some.injEq] at h
      subst h
      obtain ⟨hop, hok⟩ : portOpen w q = true ∧ healthOk w q = true := by simpa using hq
      simp [scanLoop, hop, hok]
    · have hqf : (portOpen w q && healthOk w q) = false := by simpa using hq
      have h' : List.find? (fun r => portOpen w r && healthOk w r) rest = some p := by
        simpa [List.find?_cons_of_neg, hqf] using h
      have hmem := ih p h'
      by_cases hop : portOpen w q = true
      · have hok : healthOk w q = false := healthOk_eq_false_of_and hqf hop
        simp only [scanLoop]
        rw [if_pos hop, if_neg (by simp [hok])]
        exact List.mem_cons_of_mem _ (List.mem_cons_of_mem _ hmem)
      · simp only [scanLoop]
        rw [if_neg hop]
        exact List.mem_cons_of_mem _ hmem

lemma scanLoop_found_eq (w : World) :
    ∀ (l₁ : List Int) (p : Int) (l₂ : List Int),
      (∀ q ∈ l₁, (portOpen w q && healthOk w q) = false) →
      portOpen w p = true → healthOk w p = true →
      scanLoop w (l₁ ++ p :: l₂) =
        scanSkipEv w l₁ ++
          [Ev.tcpProbe "127.0.0.1" p, Ev.httpGet (healthUrl p),
           Ev.print ("✅ Found Torque server on port " ++ toString p)] := by
  intro l₁
  induction l₁ with
  | nil =>
    intro p l₂ _ hop hok
    simp [scanLoop, scanSkipEv, hop, hok]
  | cons q l ih =>
    intro p l₂ hfail hop hok
    have hq : (portOpen w q && healthOk w q) = false := hfail q (by simp)
    have ihl := ih p l₂ (fun x hx => hfail x (by simp [hx])) hop hok
    by_cases hqo : portOpen w q = true
    · have hqh : healthOk w q = false := healthOk_eq_false_of_and hq hqo
      simp [scanLoop, scanSkipEv, hqo, hqh, ihl]
    · simp [scanLoop, scanSkipEv, hqo, ihl]

lemma mainEv_falsy (w : World) (hf : (check_server_port_file w).1 = none) :
    mainEv w = scanContextEv w ++ scanLoop w fallbackPorts ++ tipsEv := by
  simp only [mainEv, scanContextEv, noneEv, hf]
  simp [List.append_assoc]

lemma mainEv_truthy (w : World) (sp : Int)
    (hp : (check_server_port_file w).1 = some sp) (hsp : sp ≠ 0) :
    mainEv w =
      headerEv ++ (check_server_port_file w).2.map Ev.print ++
        embeddedEv w sp ++ tipsEv := by
  simp only [mainEv, hp]
  rw [if_pos hsp]

/-! ### Claim theorems -/

/-- C1: for every directory containing `server_port.txt` whose contents are a
base-10 digit string surrounded by whitespace, the port reader reads the whole
file, strips the whitespace, and returns the denoted integer. -/
theorem C1_port_reader_reads_integer (w : World) (d : Path) (a t b : String)
    (hd : find_torque_data_dir w = some d)
    (hex : w.pathExists (d ++ ["server_port.txt"]) = true)
    (hc : w.fileContents (d ++ ["server_port.txt"]) = some (a ++ t ++ b))
    (ha : ∀ c ∈ a.data, pyWs c = true) (hb : ∀ c ∈ b.data, pyWs c = true)
    (hne : t.data ≠ []) (hdig : ∀ c ∈ t.data, c.isDigit = true) :
    (check_server_port_file w).1 = some ((digitsVal t.data : Nat) : Int) := by
  have hint : pyInt (pyStrip (a ++ t ++ b)) = some ((digitsVal t.data : Nat) : Int) := by
    rw [pyStrip_sandwich a t b ha hb hne hdig]
    exact pyInt_digits t hne hdig
  simp [check_server_port_file, hd, hex, hc, hint]

/-- Concrete world for the C1 witness: a Unix-like host whose data directory
holds a port file containing `"  4321  "`. -/
def cw1dir : Path := ["home", "user", ".local", "share", "com.torque.desktop"]

def cw1file : Path := cw1dir ++ ["server_port.txt"]

def cw1 : World where
  osName := "posix"
  appdata := none
  home := ["home", "user"]
  pathExists := fun p => p == cw1dir || p == cw1file
  isDir := fun _ => true
  fileContents := fun p => if p == cw1file then some "  4321  " else none
  readErr := fun _ => "OSError"
  connectEx := fun _ _ _ => Except.ok 0
  httpGet := fun _ _ => Except.ok (200, "OK")

theorem C1_witness :
    (check_server_port_file cw1).1 = some ((digitsVal "4321".data : Nat) : Int) ∧
    ((digitsVal "4321".data : Nat) : Int) = 4321 :=
  ⟨C1_port_reader_reads_integer cw1 cw1dir "  " "4321" "  " (by decide) (by decide)
      (by decide) (by decide) (by decide) (by decide) (by decide),
   by decide⟩

/-- C2: the reachability probe is a total boolean function: an exception from
socket creation/connect yields `false`, and a nonzero `connect_ex` result
(no reachable host) yields `false`; it never raises. -/
theorem C2_probe_total_and_safe (w : World) (host : String) (port : Int) (timeout : Nat) :
    (check_port_open w host port timeout = true ∨
       check_port_open w host port timeout = false) ∧
    (∀ e, w.connectEx host port timeout = Except.error e →
       check_port_open w host port timeout = false) ∧
    (∀ r, w.connectEx host port timeout = Except.ok r → r ≠ 0 →
       check_port_open w host port timeout = false) := by
  refine ⟨?_, ?_, ?_⟩
  · cases check_port_open w host port timeout <;> simp
  · intro e he
    simp [check_port_open, he]
  · intro r hr hne
    simp [check_port_open, hr, hne]

/-- Concrete world for the C2 witness: socket creation always raises. -/
def cw2 : World where
  osName := "posix"
  appdata := none
  home := ["home", "user"]
  pathExists := fun _ => false
  isDir := fun _ => false
  fileContents := fun _ => none
  readErr := fun _ => "OSError"
  connectEx := fun _ _ _ => Except.error "Network is unreachable"
  httpGet := fun _ _ => Except.error "ConnectionError"

theorem C2_witness : check_port_open cw2 "127.0.0.1" 9999 5 = false :=
  (C2_probe_total_and_safe cw2 "127.0.0.1" 9999 5).2.1 "Network is unreachable" rfl

/-- C3: the endpoint checker returns `(status, first at-most-200 characters
of the body)` on success and `(none, stringified exception)` on a
request-layer exception; it never propagates such an exception. -/
theorem C3_endpoint_checker (w : World) (url : String) (timeout : Nat) :
    (∀ sc body, w.httpGet url timeout = Except.ok (sc, body) →
       check_http_endpoint w url timeout = (some sc, strTake body 200) ∧
       (strTake body 200).length ≤ 200 ∧
       ∃ rest, body.data = (strTake body 200).data ++ rest) ∧
    (∀ e, w.httpGet url timeout = Except.error e →
       check_http_endpoint w url timeout = (none, e)) := by
  constructor
  · intro sc body h
    refine ⟨by simp [check_http_endpoint, h], ?_, ⟨body.data.drop 200, ?_⟩⟩
    · simp only [strTake, String.length_mk]
      exact List.length_take_le 200 body.data
    · simp only [strTake]
      exact (List.take_append_drop 200 body.data).symm
  · intro e h
    simp [check_http_endpoint, h]

/-- Concrete world for the C3 witness: a mocked HTTP server answering 200. -/
def cw3 : World where
  osName := "posix"
  appdata := none
  home := ["home", "user"]
  pathExists := fun _ => false
  isDir := fun _ => false
  fileContents := fun _ => none
  readErr := fun _ => "OSError"
  connectEx := fun _ _ _ => Except.ok 0
  httpGet := fun _ _ => Except.ok (200, "torque server is healthy")

theorem C3_witness :
    check_http_endpoint cw3 "http://127.0.0.1:8080/health/health" 5 =
      (some 200, strTake "torque server is healthy" 200) ∧
    (strTake "torque server is healthy" 200).length ≤ 200 ∧
    ∃ rest, ("torque server is healthy" : String).data =
      (strTake "torque server is healthy" 200).data ++ rest :=
  (C3_endpoint_checker cw3 "http://127.0.0.1:8080/health/health" 5).1
    200 "torque server is healthy" rfl

/-- C4: when the port file is missing, or its stripped contents are not a
valid integer, the port reader returns `none`; the failure reason appears
only in the printed lines, not in the returned value. -/
theorem C4_port_reader_failures (w : World) (d : Path)
    (hd : find_torque_data_dir w = some d) :
    (w.pathExists (d ++ ["server_port.txt"]) = false →
       check_server_port_file w =
         (none, ["❌ Port file not found: " ++ pathStr (d ++ ["server_port.txt"])])) ∧
    (∀ s, w.pathExists (d ++ ["server_port.txt"]) = true →
       w.fileContents (d ++ ["server_port.txt"]) = some s →
       pyInt (pyStrip s) = none →
       (check_server_port_file w).1 = none ∧ (check_server_port_file w).2 ≠ []) := by
  constructor
  · intro hex
    simp [check_server_port_file, hd, hex]
  · intro s hex hc hbad
    simp [check_server_port_file, hd, hex, hc, hbad]

/-- Concrete world for the C4 witness, missing-file case. -/
def cw4 : World where
  osName := "posix"
  appdata := none
  home := ["home", "user"]
  pathExists := fun p => p == cw1dir
  isDir := fun _ => true
  fileContents := fun _ => none
  readErr := fun _ => "OSError"
  connectEx := fun _ _ _ => Except.ok 0
  httpGet := fun _ _ => Except.error "ConnectionError"

/-- Concrete world for the C4 witness, non-numeric-contents case. -/
def cw4b : World where
  osName := "posix"
  appdata := none
  home := ["home", "user"]
  pathExists := fun p => p == cw1dir || p == cw1file
  isDir := fun _ => true
  fileContents := fun p => if p == cw1file then some "not-a-number" else none
  readErr := fun _ => "OSError"
  connectEx := fun _ _ _ => Except.ok 0
  httpGet := fun _ _ => Except.error "ConnectionError"

theorem C4_witness :
    check_server_port_file cw4 =
      (none, ["❌ Port file not found: " ++ pathStr (cw1dir ++ ["server_port.txt"])]) ∧
    ((check_server_port_file cw4b).1 = none ∧ (check_server_port_file cw4b).2 ≠ []) :=
  ⟨(C4_port_reader_failures cw4 cw1dir (by decide)).1 (by decide),
   (C4_port_reader_failures cw4b cw1dir (by decide)).2 "not-a-number"
      (by decide) (by decide) (by decide)⟩

/-- C5: the locator returns the first existing candidate in fixed
platform-specific order: on Windows the single `APPDATA`-derived path (and
nothing when the variable is unset), on Unix-like systems the three listed
candidates in list order; `none` when no candidate exists. -/
theorem C5_locator_order (w : World) :
    (w.osName = "nt" → w.appdata = none → find_torque_data_dir w = none) ∧
    (∀ a, w.osName = "nt" → w.appdata = some a →
       find_torque_data_dir w =
         (if w.pathExists [a, "com.torque.desktop"] then some [a, "com.torque.desktop"]
          else none)) ∧
    (w.osName ≠ "nt" →
       find_torque_data_dir w =
         (if w.pathExists (w.home ++ [".local", "share", "com.torque.desktop"]) then
            some (w.home ++ [".local", "share", "com.torque.desktop"])
          else if w.pathExists (w.home ++ ["Library", "Application Support", "com.torque.desktop"]) then
            some (w.home ++ ["Library", "Application Support", "com.torque.desktop"])
          else if w.pathExists (w.home ++ [".config", "torque-desktop"]) then
            some (w.home ++ [".config", "torque-desktop"])
          else none)) := by
  refine ⟨?_, ?_, ?_⟩
  · intro h1 h2
    simp [find_torque_data_dir, possible_dirs, firstExisting, h1, h2]
  · intro a h1 h2
    simp [find_torque_data_dir, possible_dirs, firstExisting, h1, h2]
  · intro h1
    simp [find_torque_data_dir, possible_dirs, firstExisting, h1]

/-- Concrete world for the C5 witness: Windows with `APPDATA` unset. -/
def cw5 : World where
  osName := "nt"
  appdata := none
  home := []
  pathExists := fun _ => true
  isDir := fun _ => true
  fileContents := fun _ => none
  readErr := fun _ => "OSError"
  connectEx := fun _ _ _ => Except.ok 0
  httpGet := fun _ _ => Except.error "ConnectionError"

theorem C5_witness : find_torque_data_dir cw5 = none :=
  (C5_locator_order cw5).1 rfl rfl

/-- Recogniser for HTTP GET events. -/
def isHttpGetEv : Ev → Bool
  | Ev.httpGet _ => true
  | _ => false

/-- Concrete world for C6: no data directory, and every fallback port is
closed (both the TCP probe and any HTTP request would fail). -/
def cw6 : World where
  osName := "posix"
  appdata := none
  home := ["home", "user"]
  pathExists := fun _ => false
  isDir := fun _ => false
  fileContents := fun _ => none
  readErr := fun _ => "OSError"
  connectEx := fun _ _ _ => Except.error "Connection refused"
  httpGet := fun _ _ => Except.error "Connection refused"

/-- C6 counterexample: with no port obtained and all four fallback ports
closed, the scan runs to completion (the not-found line is printed), yet no
health GET is issued for any scanned fallback port — the scan TCP-probes
first and only GETs ports whose probe succeeds, contradicting "issuing the
health GET for each scanned fallback port". -/
theorem C6_counterexample :
    (check_server_port_file cw6).1 = none ∧
    Ev.print "❌ No Torque server found on common ports" ∈ mainEv cw6 ∧
    (mainEv cw6).all (fun e => !(isHttpGetEv e)) = true := by decide

/-- C6 (amended): when no port is obtained from the port file, the
orchestrator scans 8080, 8081, 3000, 3001 in that order, TCP-probing each
port; it issues the health GET only for ports whose TCP probe succeeds, and
it stops at the first port that is both TCP-open and whose health endpoint
returns HTTP 200 (printing the found line); if no port passes that combined
test it prints the not-found line. -/
theorem C6_amended_scan (w : World) (hf : (check_server_port_file w).1 = none) :
    mainEv w = scanContextEv w ++ scanLoop w fallbackPorts ++ tipsEv ∧
    (∀ u, Ev.httpGet u ∈ scanLoop w fallbackPorts →
       ∃ p, p ∈ fallbackPorts ∧ u = healthUrl p ∧
         check_port_open w "127.0.0.1" p 5 = true) ∧
    (∀ l₁ p l₂, fallbackPorts = l₁ ++ p :: l₂ →
       (∀ q ∈ l₁, (portOpen w q && healthOk w q) = false) →
       portOpen w p = true → healthOk w p = true →
       scanLoop w fallbackPorts =
         scanSkipEv w l₁ ++
           [Ev.tcpProbe "127.0.0.1" p, Ev.httpGet (healthUrl p),
            Ev.print ("✅ Found Torque server on port " ++ toString p)]) ∧
    (fallbackPorts.find? (fun p => portOpen w p && healthOk w p) = none →
       Ev.print "❌ No Torque server found on common ports" ∈ mainEv w) := by
  refine ⟨mainEv_falsy w hf, ?_, ?_, ?_⟩
  · intro u hu
    exact scanLoop_httpGet_mem w fallbackPorts u hu
  · intro l₁ p l₂ heq hfail hop hok
    rw [heq]
    exact scanLoop_found_eq w l₁ p l₂ hfail hop hok
  · intro hnone
    rw [mainEv_falsy w hf]
    exact List.mem_append.mpr
      (Or.inl (List.mem_append.mpr (Or.inr (scanLoop_notfound w fallbackPorts hnone))))

theorem C6_witness :
    Ev.print "❌ No Torque server found on common ports" ∈ mainEv cw6 :=
  (C6_amended_scan cw6 (by decide)).2.2.2 (by decide)

/-- Membership in the embedded-server branch lifts to membership in the
whole `main` trace, when the port-file step yields a truthy port. -/
lemma mem_mainEv_of_mem_embeddedEv (w : World) (sp : Int)
    (hp : (check_server_port_file w).1 = some sp) (hsp : sp ≠ 0)
    (x : Ev) (hx : x ∈ embeddedEv w sp) : x ∈ mainEv w := by
  rw [mainEv_truthy w sp hp hsp]
  exact List.mem_append.mpr (Or.inl (List.mem_append.mpr (Or.inr hx)))

/-- Concrete world for C7: the port file names port 5000, the TCP probe
succeeds, but every HTTP request raises a `RequestException`. -/
def cw7 : World where
  osName := "posix"
  appdata := none
  home := ["home", "user"]
  pathExists := fun p => p == cw1dir || p == cw1file
  isDir := fun _ => true
  fileContents := fun p => if p == cw1file then some "5000" else none
  readErr := fun _ => "OSError"
  connectEx := fun _ _ _ => Except.ok 0
  httpGet := fun _ _ => Except.error "Read timed out"

/-- C7 counterexample: the port from the port file is reachable over TCP,
yet `/ws` and `/graphql` are never contacted and no connection summary is
printed, because the health check returned no status code. -/
theorem C7_counterexample :
    (check_server_port_file cw7).1 = some 5000 ∧
    check_port_open cw7 "127.0.0.1" 5000 5 = true ∧
    Ev.httpGet (healthUrl 5000) ∈ mainEv cw7 ∧
    Ev.httpGet (wsUrl 5000) ∉ mainEv cw7 ∧
    Ev.httpGet (gqlUrl 5000) ∉ mainEv cw7 ∧
    Ev.print "\n✅ Server appears to be running correctly!" ∉ mainEv cw7 := by decide

/-- C7 (amended): whenever the port read from the port file is truthy and
reachable over TCP and the health endpoint returns a truthy status code, the
orchestrator contacts all three fixed endpoints and prints the connection
summary; if the health check yields no status, only the health endpoint is
contacted and no summary is printed. -/
theorem C7_amended_three_endpoints (w : World) (sp sc : Int) (body : String)
    (hp : (check_server_port_file w).1 = some sp) (hsp : sp ≠ 0)
    (hopen : check_port_open w "127.0.0.1" sp 5 = true)
    (hh : w.httpGet (healthUrl sp) 5 = Except.ok (sc, body)) (hsc : sc ≠ 0) :
    Ev.httpGet (healthUrl sp) ∈ mainEv w ∧
    Ev.httpGet (wsUrl sp) ∈ mainEv w ∧
    Ev.httpGet (gqlUrl sp) ∈ mainEv w ∧
    Ev.print "\n✅ Server appears to be running correctly!" ∈ mainEv w := by
  have hhe : check_http_endpoint w (healthUrl sp) 5 = (some sc, strTake body 200) := by
    simp [check_http_endpoint, hh]
  refine ⟨?_, ?_, ?_, ?_⟩ <;>
    refine mem_mainEv_of_mem_embeddedEv w sp hp hsp _ ?_ <;>
    simp [embeddedEv, portOpen, hopen, hhe, truthyI, bne_iff_ne, hsc,
      wsEv, gqlEv, summaryEv]

/-- Concrete world for the C7 witness: port file 5000, port open, all HTTP
endpoints answer 500. -/
def cw7b : World where
  osName := "posix"
  appdata := none
  home := ["home", "user"]
  pathExists := fun p => p == cw1dir || p == cw1file
  isDir := fun _ => true
  fileContents := fun p => if p == cw1file then some "5000" else none
  readErr := fun _ => "OSError"
  connectEx := fun _ _ _ => Except.ok 0
  httpGet := fun _ _ => Except.ok (500, "Internal Server Error")

theorem C7_witness :
    Ev.httpGet (healthUrl 5000) ∈ mainEv cw7b ∧
    Ev.httpGet (wsUrl 5000) ∈ mainEv cw7b ∧
    Ev.httpGet (gqlUrl 5000) ∈ mainEv cw7b ∧
    Ev.print "\n✅ Server appears to be running correctly!" ∈ mainEv cw7b :=
  C7_amended_three_endpoints cw7b 5000 500 "Internal Server Error"
    (by decide) (by decide) (by decide) rfl (by decide)

/-- Concrete world for C8: no data directory and nothing listening on any
fallback port. -/
def cw8 : World where
  osName := "posix"
  appdata := none
  home := ["home", "user"]
  pathExists := fun _ => false
  isDir := fun _ => false
  fileContents := fun _ => none
  readErr := fun _ => "OSError"
  connectEx := fun _ _ _ => Except.error "Connection refused"
  httpGet := fun _ _ => Except.error "Connection refused"

/-- C8: with no data directory present and no server reachable on any of the
four fallback ports, the tool prints the not-found line and runs to
completion (the final troubleshooting tips are printed; `mainEv` is a total
function, so the run cannot error). -/
theorem C8_no_server_found (w : World)
    (hdir : find_torque_data_dir w = none)
    (hports : ∀ p ∈ fallbackPorts, portOpen w p = false) :
    Ev.print "❌ No Torque server found on common ports" ∈ mainEv w ∧
    Ev.print "4. Check if any firewall is blocking local connections" ∈ mainEv w := by
  have hf : (check_server_port_file w).1 = none := by
    simp [check_server_port_file, hdir]
  have hnone : fallbackPorts.find? (fun p => portOpen w p && healthOk w p) = none := by
    refine List.find?_eq_none.mpr ?_
    intro p hp hx
    simp [hports p hp] at hx
  constructor
  · rw [mainEv_falsy w hf]
    exact List.mem_append.mpr
      (Or.inl (List.mem_append.mpr (Or.inr (scanLoop_notfound w fallbackPorts hnone))))
  · rw [mainEv_falsy w hf]
    exact List.mem_append.mpr (Or.inr (by simp [tipsEv]))

theorem C8_witness :
    Ev.print "❌ No Torque server found on common ports" ∈ mainEv cw8 ∧
    Ev.print "4. Check if any firewall is blocking local connections" ∈ mainEv cw8 :=
  C8_no_server_found cw8 (by decide) (by decide)

/-- The candidate path used by the C9 counterexample world. -/
def cw9dir : Path := ["home", "user", ".local", "share", "com.torque.desktop"]

/-- Concrete world for C9: the first Unix-like candidate path exists but is
a regular file, not a directory (`Path.exists()` is true for files too). -/
def cw9 : World where
  osName := "posix"
  appdata := none
  home := ["home", "user"]
  pathExists := fun p => p == cw9dir
  isDir := fun _ => false
  fileContents := fun _ => none
  readErr := fun _ => "OSError"
  connectEx := fun _ _ _ => Except.error "Connection refused"
  httpGet := fun _ _ => Except.error "Connection refused"

/-- C9 counterexample: the locator returns a path that exists but is not a
directory — the candidate filter is `exists()`, not `is_dir()`, so the port
reader can be handed a non-directory path. -/
theorem C9_counterexample :
    find_torque_data_dir cw9 = some cw9dir ∧
    cw9.pathExists cw9dir = true ∧
    cw9.isDir cw9dir = false := by decide

/-- C9 (amended): every path the locator returns exists (in the `exists()`
sense, which holds for files as well as directories) and is one of the
platform-specific candidates; existence, not directory-ness, is the filter. -/
theorem C9_amended_exists (w : World) (d : Path)
    (h : find_torque_data_dir w = some d) :
    w.pathExists d = true ∧ d ∈ possible_dirs w :=
  firstExisting_spec w (possible_dirs w) d h

theorem C9_witness :
    cw9.pathExists cw9dir = true ∧ cw9dir ∈ possible_dirs cw9 :=
  C9_amended_exists cw9 cw9dir (by decide)

/-- Concrete world for C10: port file 5000, port open, and the health
endpoint answers 404. -/
def cw10 : World where
  osName := "posix"
  appdata := none
  home := ["home", "user"]
  pathExists := fun p => p == cw1dir || p == cw1file
  isDir := fun _ => true
  fileContents := fun p => if p == cw1file then some "5000" else none
  readErr := fun _ => "OSError"
  connectEx := fun _ _ _ => Except.ok 0
  httpGet := fun _ _ => Except.ok (404, "Not Found")

/-- C10: with a valid (truthy) port file and a reachable port, any truthy
HTTP status from the health endpoint — 404 or 500 included, not only 200 —
yields the "running correctly" summary with the base, WebSocket and GraphQL
URLs derived from that exact port.  (Real HTTP status codes are all nonzero,
hence truthy.) -/
theorem C10_summary_for_any_status (w : World) (sp sc : Int) (body : String)
    (hp : (check_server_port_file w).1 = some sp) (hsp : sp ≠ 0)
    (hopen : check_port_open w "127.0.0.1" sp 5 = true)
    (hh : w.httpGet (healthUrl sp) 5 = Except.ok (sc, body)) (hsc : sc ≠ 0) :
    Ev.print "\n✅ Server appears to be running correctly!" ∈ mainEv w ∧
    Ev.print ("   Base URL: http://127.0.0.1:" ++ toString sp) ∈ mainEv w ∧
    Ev.print ("   WebSocket: ws://127.0.0.1:" ++ toString sp ++ "/ws") ∈ mainEv w ∧
    Ev.print ("   GraphQL: http://127.0.0.1:" ++ toString sp ++ "/graphql") ∈ mainEv w := by
  have hhe : check_http_endpoint w (healthUrl sp) 5 = (some sc, strTake body 200) := by
    simp [check_http_endpoint, hh]
  refine ⟨?_, ?_, ?_, ?_⟩ <;>
    refine mem_mainEv_of_mem_embeddedEv w sp hp hsp _ ?_ <;>
    simp [embeddedEv, portOpen, hopen, hhe, truthyI, bne_iff_ne, hsc,
      wsEv, gqlEv, summaryEv]

theorem C10_witness :
    Ev.print "\n✅ Server appears to be running correctly!" ∈ mainEv cw10 ∧
    Ev.print ("   Base URL: http://127.0.0.1:" ++ toString (5000 : Int)) ∈ mainEv cw10 ∧
    Ev.print ("   WebSocket: ws://127.0.0.1:" ++ toString (5000 : Int) ++ "/ws") ∈ mainEv cw10 ∧
    Ev.print ("   GraphQL: http://127.0.0.1:" ++ toString (5000 : Int) ++ "/graphql") ∈ mainEv cw10 :=
  C10_summary_for_any_status cw10 5000 404 "Not Found"
    (by decide) (by decide) (by decide) rfl (by decide)

end Torque
